import Mathlib

/-
Verification of the statistics-collection core of zpool-rw-meter.

Modelling conventions, used consistently below:
* Rust u64 values are modelled as Nat; where overflow matters the source
  operation is modelled with an explicit wrap modulo 2 ^ 64 (u64add), and
  u64 saturating_sub is Nat subtraction (which is itself truncated).
* Rust f64 values are modelled exactly as rationals: parsing a decimal
  literal yields its exact rational value and arithmetic is exact.  The
  rounding of binary floating point, and the special values inf and NaN
  accepted by the Rust f64 parser, are outside the model.
* The cast expr as u64 from f64 truncates toward zero and saturates to
  the range of u64 in Rust; f64ToU64 mirrors that on rationals.
* std::time::Instant is modelled as a rational number of seconds;
  Instant::duration_since saturates to zero when the argument is later,
  as in the standard library.
* Strings are processed through their character lists, so that every
  definition evaluates inside the kernel.  Rust str::trim,
  char::is_whitespace and char::is_alphabetic act on ASCII inputs exactly
  like the Char.isWhitespace / Char.isAlpha used here; the Unicode cases
  do not arise for the kernel statistics formats being parsed.
* The arithmetic of the model is expressed through divInt-style helper
  operations (qadd, qsub, qmul, qdiv, qfloor) that the kernel can
  evaluate; the lemmas qadd_eq .. qfloor_eq identify them with the
  ordinary field operations on the rationals.
-/

set_option autoImplicit false


/- ## Exact-rational executable model of f64 values -/

/-- Executable addition on the rationals, by numerator and denominator. -/
def qadd (a b : ℚ) : ℚ := Rat.divInt (a.num * b.den + b.num * a.den) ((a.den : ℤ) * (b.den : ℤ))

/-- Executable subtraction on the rationals. -/
def qsub (a b : ℚ) : ℚ := Rat.divInt (a.num * b.den - b.num * a.den) ((a.den : ℤ) * (b.den : ℤ))

/-- Executable multiplication on the rationals. -/
def qmul (a b : ℚ) : ℚ := Rat.divInt (a.num * b.num) ((a.den : ℤ) * (b.den : ℤ))

/-- Executable division on the rationals. -/
def qdiv (a b : ℚ) : ℚ := Rat.divInt (a.num * b.den) ((a.den : ℤ) * b.num)

/-- Executable floor of a rational. -/
def qfloor (q : ℚ) : ℤ := q.num / q.den

-- quick sanity examples (concrete evaluation happens in the kernel),
-- mirroring the unit tests of the repository

/-- Wrapping addition of two u64 counters, as in a release build. -/
def u64add (a b : Nat) : Nat := (a + b) % 2 ^ 64

/-- The f64 to u64 cast of Rust: truncate toward zero, saturate to the u64
range (negative values and NaN collapse to zero). -/
def f64ToU64 (q : ℚ) : Nat := min (2 ^ 64 - 1) (qfloor q).toNat

/- ## Character-list string primitives (Rust str methods) -/

/-- Rust str::trim on the character list of an ASCII string. -/
def rustTrim (cs : List Char) : List Char :=
  ((cs.dropWhile Char.isWhitespace).reverse.dropWhile Char.isWhitespace).reverse

/-- Rust str::starts_with for a string pattern. -/
def startsWithC (l pat : List Char) : Bool := List.isPrefixOf pat l

/-- Rust str::contains for a string pattern. -/
def containsC (pat : List Char) : List Char → Bool
  | [] => decide (pat = [])
  | c :: rest => List.isPrefixOf pat (c :: rest) || containsC pat rest

/-- Rust str::split_whitespace: maximal runs of non-whitespace characters. -/
def rustSplitWs (l : List Char) : List (List Char) :=
  match l with
  | [] => []
  | c :: rest =>
    if c.isWhitespace then rustSplitWs rest
    else
      match rustSplitWs rest with
      | [] => [[c]]
      | w :: ws =>
        if rest.head?.any (fun d => !d.isWhitespace) then (c :: w) :: ws else [c] :: w :: ws

/-- Helper for rustLines: split at newline characters, dropping a final
empty segment as Rust str::lines does. -/
def splitNewlines (acc : List Char) : List Char → List (List Char)
  | [] => if acc = [] then [] else [acc.reverse]
  | c :: rest =>
    if c = '\n' then acc.reverse :: splitNewlines [] rest
    else splitNewlines (c :: acc) rest

/-- Strip one trailing carriage return, as Rust str::lines does per line. -/
def stripCR (l : List Char) : List Char :=
  if l.getLast? = some '\r' then l.dropLast else l

/-- Rust str::lines on the character list of a string. -/
def rustLines (cs : List Char) : List (List Char) :=
  (splitNewlines [] cs).map stripCR

/-- Digit-string accumulator for integer parsing. -/
def digitsToNat (acc : Nat) : List Char → Option Nat
  | [] => some acc
  | c :: rest =>
    if c.isDigit then digitsToNat (acc * 10 + (c.toNat - '0'.toNat)) rest else none

/-- Rust u64::from_str: an optional plus sign, one or more ASCII digits,
and the value must fit in 64 bits. -/
def parseU64 (cs : List Char) : Option Nat :=
  let body := match cs with
    | '+' :: rest => rest
    | _ => cs
  match body with
  | [] => none
  | l =>
    match digitsToNat 0 l with
    | none => none
    | some v => if v < 2 ^ 64 then some v else none

/-- Value of a digit list (defaulting impossible digits to junk); only used
beneath guards that established all characters are digits. -/
def digitsVal (l : List Char) : Nat := l.foldl (fun a c => a * 10 + (c.toNat - '0'.toNat)) 0

/-- Rust f64::from_str restricted to finite decimal literals, producing the
exact rational value: an optional sign, an integer part and/or a fractional
part, and an optional decimal exponent.  The special forms inf and NaN are
outside the model. -/
def parseF64 (cs : List Char) : Option ℚ :=
  let (sgn, afterSign) : Int × List Char := match cs with
    | '-' :: rest => (-1, rest)
    | '+' :: rest => (1, rest)
    | _ => (1, cs)
  let intPart := afterSign.takeWhile Char.isDigit
  let rest1 := afterSign.dropWhile Char.isDigit
  let (fracPart, rest2) : List Char × List Char := match rest1 with
    | '.' :: r => (r.takeWhile Char.isDigit, r.dropWhile Char.isDigit)
    | _ => ([], rest1)
  if intPart = [] ∧ fracPart = [] then none
  else
    let mantissa : Int := sgn * (digitsVal intPart * 10 ^ fracPart.length + digitsVal fracPart)
    match rest2 with
    | [] => some (Rat.divInt mantissa ((10 : ℤ) ^ fracPart.length))
    | e :: r =>
      if e = 'e' ∨ e = 'E' then
        let (esgn, r2) : Bool × List Char := match r with
          | '-' :: rr => (true, rr)
          | '+' :: rr => (false, rr)
          | _ => (false, r)
        if r2 ≠ [] ∧ r2.all Char.isDigit then
          let ev := digitsVal r2
          if esgn then some (Rat.divInt mantissa ((10 : ℤ) ^ (fracPart.length + ev)))
          else some (Rat.divInt (mantissa * 10 ^ ev) ((10 : ℤ) ^ fracPart.length))
        else none
      else none

/- ## Association lists standing in for HashMap -/

/-- Association-list update mirroring HashMap::insert. -/
def mapInsert {α : Type} (k : String) (v : α) : List (String × α) → List (String × α)
  | [] => [(k, v)]
  | (k', v') :: rest => if k' = k then (k, v) :: rest else (k', v') :: mapInsert k v rest

/-- Association-list read mirroring HashMap::get. -/
def mapLookup {α : Type} (k : String) : List (String × α) → Option α
  | [] => none
  | (k', v) :: rest => if k' = k then some v else mapLookup k rest

instance {ε α : Type} [DecidableEq ε] [DecidableEq α] : DecidableEq (Except ε α) := fun x y =>
  match x, y with
  | .ok a, .ok b =>
    match decEq a b with
    | isTrue h => isTrue (congrArg Except.ok h)
    | isFalse h => isFalse (fun hh => h (Except.ok.inj hh))
  | .error a, .error b =>
    match decEq a b with
    | isTrue h => isTrue (congrArg Except.error h)
    | isFalse h => isFalse (fun hh => h (Except.error.inj hh))
  | .ok _, .error _ => isFalse (fun hh => Except.noConfusion hh)
  | .error _, .ok _ => isFalse (fun hh => Except.noConfusion hh)

/- ## Error type (src/zfs/error.rs, constructors as used by the collector) -/

/-- ZfsError mirrors the error enum; the boxed io::Error sources are
modelled by their message strings. -/
inductive ZfsError : Type where
  | commandError (command : String) (args : List String) (msg : String)
  | filesystemError (path operation msg : String)
  | parseError (dataSource reason : String)
  | invalidFormat (expected received context : String)
  | subsystemUnavailable (subsystem reason : String)
  | timeoutError (operation : String)
deriving DecidableEq

/-- Classifier for the invalid-format error kind. -/
def ZfsError.isInvalidFormat : ZfsError → Bool
  | .invalidFormat _ _ _ => true
  | _ => false

/-- Classifier for the parse-failure error kind. -/
def ZfsError.isParseError : ZfsError → Bool
  | .parseError _ _ => true
  | _ => false

/- ## Typed metric records (src/zfs/types.rs, fields populated by stats.rs) -/

/-- ArcStats snapshot; hit_rate is the f64 percentage, modelled exactly. -/
structure ArcStats : Type where
  hit_rate : ℚ
  size : Nat
  target : Nat
  read_ops : Nat
deriving DecidableEq

/-- L2ArcStats snapshot. -/
structure L2ArcStats : Type where
  hit_rate : ℚ
  size : Nat
  read_bytes : Nat
  total_ops : Nat
deriving DecidableEq

/- ## Rate calculator (src/zfs/rate_calculator.rs) -/

/-- RateCalculator state: the two HashMaps, as association lists with
unique keys.  Timestamps are rational seconds. -/
structure RateCalculator : Type where
  previous_values : List (String × Nat)
  previous_timestamps : List (String × ℚ)
deriving DecidableEq

/-- RateCalculator::new. -/
def RateCalculator.new : RateCalculator := ⟨[], []⟩

/-- Instant::duration_since, which saturates to the zero duration when the
other instant is later, converted to seconds by as_secs_f64. -/
def durationSince (t s : ℚ) : ℚ := if t ≤ s then 0 else qsub t s

/-- RateCalculator::calculate_rate.  Reads but does not change the state:
None on the first observation of a key, otherwise the clamped value delta
divided by the elapsed seconds, and exactly zero when no time elapsed. -/
def RateCalculator.calculate_rate (self : RateCalculator) (key : String)
    (current_value : Nat) (current_time : ℚ) : Option ℚ :=
  match mapLookup key self.previous_values, mapLookup key self.previous_timestamps with
  | some prev_value, some prev_time =>
    let value_delta : Nat := current_value - prev_value
    let time_delta : ℚ := durationSince current_time prev_time
    if 0 < time_delta then some (qdiv (value_delta : ℚ) time_delta) else some 0
  | _, _ => none

/-- RateCalculator::update. -/
def RateCalculator.update (self : RateCalculator) (key : String) (value : Nat)
    (timestamp : ℚ) : RateCalculator :=
  { previous_values := mapInsert key value self.previous_values
    previous_timestamps := mapInsert key timestamp self.previous_timestamps }

/-- RateCalculator::calculate_and_update, returning the rate together with
the successor state. -/
def RateCalculator.calculate_and_update (self : RateCalculator) (key : String)
    (current_value : Nat) (current_time : ℚ) : Option ℚ × RateCalculator :=
  (self.calculate_rate key current_value current_time,
   self.update key current_value current_time)

/- ## Result cache (src/system/cache.rs) -/

/-- One cache slot with its absolute expiry instant. -/
structure CacheEntry (T : Type) : Type where
  value : T
  expires_at : ℚ
deriving DecidableEq

/-- Cache: HashMap from string keys to entries, plus the default TTL.
Instant::now() is passed explicitly to each operation as rational seconds. -/
structure Cache (T : Type) : Type where
  data : List (String × CacheEntry T)
  default_ttl : ℚ
deriving DecidableEq

/-- Cache::new. -/
def Cache.new (T : Type) (default_ttl : ℚ) : Cache T := ⟨[], default_ttl⟩

/-- Cache::get at instant now: a stored value is returned only while now is
strictly before its expiry instant. -/
def Cache.get {T : Type} (self : Cache T) (now : ℚ) (key : String) : Option T :=
  match mapLookup key self.data with
  | some entry => if now < entry.expires_at then some entry.value else none
  | none => none

/-- Cache::insert_with_ttl at instant now. -/
def Cache.insert_with_ttl {T : Type} (self : Cache T) (now : ℚ) (key : String)
    (value : T) (ttl : ℚ) : Cache T :=
  { self with data := mapInsert key ⟨value, qadd now ttl⟩ self.data }

/-- Cache::insert, using the default TTL. -/
def Cache.insert {T : Type} (self : Cache T) (now : ℚ) (key : String) (value : T) : Cache T :=
  self.insert_with_ttl now key value self.default_ttl

/-- Cache::cleanup at instant now retains exactly the unexpired entries. -/
def Cache.cleanup {T : Type} (self : Cache T) (now : ℚ) : Cache T :=
  { self with data := self.data.filter (fun p => now < p.2.expires_at) }

/-- Cache::clear. -/
def Cache.clear {T : Type} (self : Cache T) : Cache T :=
  { self with data := [] }

/- ## Statistics collector (src/zfs/stats.rs) -/

/-- ZfsStatsCollector::parse_arcstat_output: at least four whitespace
fields, read as hit-rate percentage (f64), cumulative read operations,
current size and target size; extra fields are ignored. -/
def parse_arcstat_output (output : String) : Except ZfsError ArcStats :=
  match rustSplitWs output.data with
  | p0 :: p1 :: p2 :: p3 :: _ =>
    match parseF64 p0 with
    | none => .error (.parseError "arcstat hit_rate" "Invalid hit rate percentage")
    | some hit_rate =>
      match parseU64 p1 with
      | none => .error (.parseError "arcstat read_ops" "Invalid read operations count")
      | some read_ops =>
        match parseU64 p2 with
        | none => .error (.parseError "arcstat size" "Invalid cache size")
        | some size =>
          match parseU64 p3 with
          | none => .error (.parseError "arcstat target" "Invalid target size")
          | some target =>
            .ok { hit_rate := hit_rate, size := size, target := target, read_ops := read_ops }
  | parts =>
    .error (.invalidFormat "at least 4 space-separated numbers"
      (Nat.repr parts.length ++ " parts") "arcstat output")

/-- The power-of-1024 multiplier of a bandwidth unit letter after
to_ascii_uppercase, none for an unrecognized character. -/
def unitMultiplier (c : Char) : Option Nat :=
  match c.toUpper with
  | 'B' => some 1
  | 'K' => some 1024
  | 'M' => some (1024 * 1024)
  | 'G' => some (1024 * 1024 * 1024)
  | 'T' => some (1024 * 1024 * 1024 * 1024)
  | _ => none

/-- ZfsStatsCollector::parse_bandwidth: empty string or lone dash give 0;
a recognized trailing unit letter is stripped and the f64 prefix scaled by
the power-of-1024 multiplier, cast to u64; otherwise the whole (trimmed)
string is parsed as u64. -/
def parse_bandwidth (s : String) : Except ZfsError Nat :=
  if s.data = [] ∨ s.data = ['-'] then .ok 0
  else
    let bw := rustTrim s.data
    match bw.getLast? with
    | none => .error (.invalidFormat "non-empty string" "empty string" "bandwidth parsing")
    | some last_char =>
      let num_str := if "BKMGTbkmgt".data.contains last_char then bw.dropLast else bw
      match unitMultiplier last_char with
      | none =>
        match parseU64 bw with
        | some n => .ok n
        | none => .error (.parseError "bandwidth" "Invalid number format")
      | some multiplier =>
        match parseF64 num_str with
        | none => .error (.parseError "bandwidth number" "Invalid numeric value")
        | some num => .ok (f64ToU64 (qmul num (multiplier : ℚ)))

/-- The device-token extraction attempted on a non-empty line inside the
logs section: when the line starts with mirror- or mentions ONLINE, its
first whitespace token is returned provided it starts with mirror-. -/
def slogTokenHit (line : List Char) : Option (List Char) :=
  if startsWithC line "mirror-".data || containsC "ONLINE".data line then
    match (rustSplitWs line).head? with
    | some tok => if startsWithC tok "mirror-".data then some tok else none
    | none => none
  else none

/-- Loop body of ZfsStatsCollector::parse_slog_device_from_status over the
remaining lines, carrying the in_logs_section flag.  A line starting with
an alphabetic character that is neither a device line nor an ONLINE line
ends the section, falling through to the Ok-none result. -/
def slogDeviceLoop (inLogs : Bool) : List (List Char) → Except ZfsError (Option String)
  | [] => .ok none
  | raw :: rest =>
    let line := rustTrim raw
    if startsWithC line "logs".data then slogDeviceLoop true rest
    else if inLogs then
      if line = [] then slogDeviceLoop inLogs rest
      else
        match slogTokenHit line with
        | some tok => .ok (some (String.mk tok))
        | none =>
          if line.head?.any Char.isAlpha && !containsC "ONLINE".data line &&
              !startsWithC line "mirror-".data then
            .ok none
          else slogDeviceLoop true rest
    else slogDeviceLoop false rest

/-- ZfsStatsCollector::parse_slog_device_from_status. -/
def parse_slog_device_from_status (status_output : String) : Except ZfsError (Option String) :=
  slogDeviceLoop false (rustLines status_output.data)

/-- Accumulated counters of the /proc arcstats parse in
collect_arc_stats_from_proc. -/
structure ProcArc : Type where
  hits : Nat
  misses : Nat
  size : Nat
  c_max : Nat
  read_ops : Nat
deriving DecidableEq

/-- Initial (all-zero) counters. -/
def ProcArc.init : ProcArc := ⟨0, 0, 0, 0, 0⟩

/-- The line loop of collect_arc_stats_from_proc: skip blank and header
lines, require at least three whitespace fields, parse the third field as
u64 (failing hard on a malformed integer whatever the name is), and record
the value under the recognized names. -/
def arcProcLines (acc : ProcArc) : List (List Char) → Except ZfsError ProcArc
  | [] => .ok acc
  | raw :: rest =>
    let line := rustTrim raw
    if line = [] ∨ startsWithC line "name".data then arcProcLines acc rest
    else
      match rustSplitWs line with
      | p0 :: _ :: p2 :: _ =>
        match parseU64 p2 with
        | none => .error (.parseError "ARC kstat" ("Invalid number: " ++ String.mk p2))
        | some v =>
          let acc' :=
            if p0 = "hits".data then { acc with hits := v }
            else if p0 = "misses".data then { acc with misses := v }
            else if p0 = "size".data then { acc with size := v }
            else if p0 = "c_max".data then { acc with c_max := v }
            else if p0 = "read_ops".data then { acc with read_ops := v }
            else acc
          arcProcLines acc' rest
      | _ => arcProcLines acc rest

/-- The hit-rate computation shared by the ARC and L2ARC collectors:
100 * hits / (hits + misses) with the u64 sum wrapping, and 0 when the
wrapped total is 0. -/
def hitRatePct (hits misses : Nat) : ℚ :=
  let total := u64add hits misses
  if 0 < total then qmul (qdiv (hits : ℚ) (total : ℚ)) 100 else 0

/-- ZfsStatsCollector::collect_arc_stats_from_proc.  The filesystem read of
/proc/spl/kstat/zfs/arcstats is passed in as its result; the rate state is
threaded explicitly and is unchanged on every error path. -/
def collect_arc_stats_from_proc (readResult : Except String String)
    (rc : RateCalculator) (now : ℚ) : Except ZfsError ArcStats × RateCalculator :=
  match readResult with
  | .error e => (.error (.filesystemError "/proc/spl/kstat/zfs/arcstats" "read" e), rc)
  | .ok content =>
    match arcProcLines ProcArc.init (rustLines content.data) with
    | .error e => (.error e, rc)
    | .ok st =>
      let hit_rate := hitRatePct st.hits st.misses
      let r := rc.calculate_and_update "arc_read_ops" st.read_ops now
      (.ok { hit_rate := hit_rate, size := st.size, target := st.c_max,
             read_ops := f64ToU64 (r.1.getD 0) }, r.2)

/-- The fixed ordered list of arcstat fallback command variants. -/
def arcstatCommands : List (String × List String) :=
  [("arcstat", ["-f", "hit%,miss%,read,arcsz,c", "1", "1"]),
   ("arcstat", ["1", "1"]),
   ("echo", ["|", "arcstat"])]

/-- ZfsStatsCollector::collect_arc_stats_from_arcstat, generalized over the
list of command variants still to try.  The executor capability is a
function from command and arguments to the outcome of the bounded-timeout
execution (a timeout is just one kind of error result). -/
def collect_arc_stats_from_arcstat (exec : String → List String → Except String String)
    (cmds : List (String × List String)) (rc : RateCalculator) (now : ℚ) :
    Except ZfsError ArcStats × RateCalculator :=
  match cmds with
  | [] =>
    (.error (.subsystemUnavailable "ARC"
      "Failed to collect statistics from all sources (/proc and arcstat command)"), rc)
  | (cmd, args) :: rest =>
    match exec cmd args with
    | .ok output =>
      match parse_arcstat_output output with
      | .ok stats =>
        let r := rc.calculate_and_update "arc_read_ops" stats.read_ops now
        (.ok { stats with read_ops := f64ToU64 (r.1.getD 0) }, r.2)
      | .error _ => collect_arc_stats_from_arcstat exec rest rc now
    | .error _ => collect_arc_stats_from_arcstat exec rest rc now

/-- ZfsStatsCollector::collect_arc_stats: the /proc path first, the arcstat
command fallback on any failure of it. -/
def collect_arc_stats (readResult : Except String String)
    (exec : String → List String → Except String String)
    (rc : RateCalculator) (now : ℚ) : Except ZfsError ArcStats × RateCalculator :=
  match collect_arc_stats_from_proc readResult rc now with
  | (.ok stats, rc') => (.ok stats, rc')
  | (.error _, _) => collect_arc_stats_from_arcstat exec arcstatCommands rc now

/-- Accumulated counters of the L2ARC parse in collect_l2arc_stats. -/
structure ProcL2 : Type where
  l2_hits : Nat
  l2_misses : Nat
  l2_size : Nat
  l2_read_bytes : Nat
deriving DecidableEq

/-- Initial (all-zero) L2 counters. -/
def ProcL2.init : ProcL2 := ⟨0, 0, 0, 0⟩

/-- The line loop of collect_l2arc_stats; same shape as arcProcLines with
the l2 counter names. -/
def l2ProcLines (acc : ProcL2) : List (List Char) → Except ZfsError ProcL2
  | [] => .ok acc
  | raw :: rest =>
    let line := rustTrim raw
    if line = [] ∨ startsWithC line "name".data then l2ProcLines acc rest
    else
      match rustSplitWs line with
      | p0 :: _ :: p2 :: _ =>
        match parseU64 p2 with
        | none => .error (.parseError "L2ARC kstat" ("Invalid number: " ++ String.mk p2))
        | some v =>
          let acc' :=
            if p0 = "l2_hits".data then { acc with l2_hits := v }
            else if p0 = "l2_misses".data then { acc with l2_misses := v }
            else if p0 = "l2_size".data then { acc with l2_size := v }
            else if p0 = "l2_read_bytes".data then { acc with l2_read_bytes := v }
            else acc
          l2ProcLines acc' rest
      | _ => l2ProcLines acc rest

/-- ZfsStatsCollector::collect_l2arc_stats.  The presence probe looks for a
raw (untrimmed) line starting with l2_size; absence is the Ok-none result,
not an error. -/
def collect_l2arc_stats (readResult : Except String String)
    (rc : RateCalculator) (now : ℚ) : Except ZfsError (Option L2ArcStats) × RateCalculator :=
  match readResult with
  | .error e => (.error (.filesystemError "/proc/spl/kstat/zfs/arcstats" "read" e), rc)
  | .ok content =>
    let lines := rustLines content.data
    if !(lines.any (fun l => startsWithC l "l2_size".data)) then (.ok none, rc)
    else
      match l2ProcLines ProcL2.init lines with
      | .error e => (.error e, rc)
      | .ok st =>
        let total_l2_ops := u64add st.l2_hits st.l2_misses
        let l2_hit_rate := hitRatePct st.l2_hits st.l2_misses
        let r1 := rc.calculate_and_update "l2_total_ops" total_l2_ops now
        let r2 := r1.2.calculate_and_update "l2_read_bytes" st.l2_read_bytes now
        (.ok (some { hit_rate := l2_hit_rate, size := st.l2_size,
                     read_bytes := f64ToU64 (r2.1.getD 0),
                     total_ops := f64ToU64 (r1.1.getD 0) }), r2.2)

/- ## Helper definitions used by individual claim statements -/

/-- A raw arcstats line makes the parse fail exactly when it is not skipped
as blank or header, splits into at least three whitespace fields, and its
third field is not a well-formed u64 — independently of the name field. -/
def arcLineBad (raw : List Char) : Bool :=
  let line := rustTrim raw
  if line = [] ∨ startsWithC line "name".data then false
  else
    match rustSplitWs line with
    | _ :: _ :: p2 :: _ => (parseU64 p2).isNone
    | _ => false

/-- Whether a parse result is an invalid-format failure. -/
def resultInvalidFormat {α : Type} : Except ZfsError α → Bool
  | .error e => e.isInvalidFormat
  | .ok _ => false

/-- The recognized unit letters with their power-of-1024 multipliers,
upper and lower case. -/
def unitTable : List (Char × Nat) :=
  [('B', 1024 ^ 0), ('b', 1024 ^ 0), ('K', 1024 ^ 1), ('k', 1024 ^ 1),
   ('M', 1024 ^ 2), ('m', 1024 ^ 2), ('G', 1024 ^ 3), ('g', 1024 ^ 3),
   ('T', 1024 ^ 4), ('t', 1024 ^ 4)]

/-- The scenario-B device line of the spec. -/
def slogDevLineB : List Char := "  mirror-1 ONLINE 0 0 0".data

/-- A fallback command variant fails when its execution fails (including by
timeout) or its output does not parse. -/
def variantFails (exec : String → List String → Except String String)
    (ca : String × List String) : Prop :=
  (∃ e, exec ca.1 ca.2 = .error e) ∨
  (∃ o e, exec ca.1 ca.2 = .ok o ∧ parse_arcstat_output o = .error e)

-- Sanity examples mirroring the unit tests of the repository;

-- concrete evaluation happens inside the kernel.

example : rustSplitWs "  95.2   1234 ".data = ["95.2".data, "1234".data] := by decide

example : rustLines "a\r\nb\n".data = ["a".data, "b".data] := by decide

example : parseU64 "1234".data = some 1234 := by decide

example : parseF64 "12.0".data = some 12 := by decide

example : parseF64 "1.82".data = some (Rat.divInt 182 100) := by decide

example : parseF64 "-3.5e1".data = some (-35) := by decide

example : f64ToU64 (qmul (Rat.divInt 3 2) 1024) = 1536 := by decide

example : parse_arcstat_output "95.2 1234 5368709120 8589934592" =
    .ok { hit_rate := Rat.divInt 952 10, size := 5368709120,
          target := 8589934592, read_ops := 1234 } := by decide

example : (parse_arcstat_output "95.2 1234").isOk = false := by decide

example : parse_bandwidth "1.5G" = .ok 1610612736 := by decide

example : parse_bandwidth "1K" = .ok 1024 := by decide

example : parse_bandwidth "2.25M" = .ok 2359296 := by decide

example : parse_bandwidth "1m" = .ok (1024 * 1024) := by decide

example : parse_bandwidth "1024" = .ok 1024 := by decide

example : parse_bandwidth "" = .ok 0 := by decide

example : parse_bandwidth "-" = .ok 0 := by decide

example : parse_bandwidth "100X" = .error (.parseError "bandwidth" "Invalid number format") := by
  decide

example : parse_bandwidth "1000T" = .ok (1000 * 1024 * 1024 * 1024 * 1024) := by decide

example : parse_slog_device_from_status
    "\n  pool: testpool\n state: ONLINE\nconfig:\n\n    NAME        STATE     READ WRITE CKSUM\n    testpool    ONLINE       0     0     0\n      raidz1-0  ONLINE       0     0     0\n        sda     ONLINE       0     0     0\n        sdb     ONLINE       0     0     0\n\nlogs\n  mirror-1    ONLINE       0     0     0\n    sdc       ONLINE       0     0     0\n    sdd       ONLINE       0     0     0\n" =
    .ok (some "mirror-1") := by decide

example : parse_slog_device_from_status
    "\n  pool: testpool\n state: ONLINE\nconfig:\n\n    NAME        STATE     READ WRITE CKSUM\n    testpool    ONLINE       0     0     0\n      raidz1-0  ONLINE       0     0     0\n" =
    .ok none := by decide

example : arcProcLines ProcArc.init
    (rustLines "name type data\nhits 4 900\nmisses 4 100\nsize 4 49720066048\nc_max 4 49910562816\nread_ops 4 1247\n".data) =
    .ok { hits := 900, misses := 100, size := 49720066048,
          c_max := 49910562816, read_ops := 1247 } := by decide

example : hitRatePct 900 100 = 90 := by decide

/- ## Lemmas identifying the executable operations -/

theorem qadd_eq (a b : ℚ) : qadd a b = a + b := by
  rw [qadd, ← Rat.divInt_add_divInt a.num b.num (by exact_mod_cast a.den_ne_zero)
    (by exact_mod_cast b.den_ne_zero), Rat.num_divInt_den, Rat.num_divInt_den]

theorem qsub_eq (a b : ℚ) : qsub a b = a - b := by
  rw [qsub, ← Rat.divInt_sub_divInt a.num b.num (by exact_mod_cast a.den_ne_zero)
    (by exact_mod_cast b.den_ne_zero), Rat.num_divInt_den, Rat.num_divInt_den]

theorem qmul_eq (a b : ℚ) : qmul a b = a * b := by
  rw [qmul, ← Rat.divInt_mul_divInt' a.num (a.den : ℤ) b.num (b.den : ℤ),
    Rat.num_divInt_den, Rat.num_divInt_den]

theorem qdiv_eq (a b : ℚ) : qdiv a b = a / b := by
  rw [qdiv, div_eq_mul_inv, Rat.inv_def']
  conv_rhs => rw [← Rat.num_divInt_den a]
  rw [Rat.divInt_mul_divInt']

theorem qfloor_eq (q : ℚ) : qfloor q = ⌊q⌋ := (Rat.floor_def).symm

theorem u64add_eq_of_lt {a b : Nat} (h : a + b < 2 ^ 64) : u64add a b = a + b :=
  Nat.mod_eq_of_lt h

theorem f64ToU64_eq_floor {q : ℚ} (h : q < 2 ^ 64 - 1) :
    f64ToU64 q = (⌊q⌋).toNat := by
  have h2 : (⌊q⌋ : ℚ) < (((2 : ℤ) ^ 64 - 1 : ℤ) : ℚ) := by
    rw [show ((((2 : ℤ) ^ 64 - 1 : ℤ)) : ℚ) = ((2 : ℚ) ^ 64 - 1) by norm_num]
    exact lt_of_le_of_lt (Int.floor_le q) h
  have h1 : ⌊q⌋ < (2 : ℤ) ^ 64 - 1 := by exact_mod_cast h2
  rw [f64ToU64, qfloor_eq, min_eq_right (by omega)]

/- ## Lemmas on association-list lookup -/

theorem mapLookup_mapInsert_self {α : Type} (k : String) (v : α) (l : List (String × α)) :
    mapLookup k (mapInsert k v l) = some v := by
  induction l with
  | nil => simp [mapInsert, mapLookup]
  | cons hd tl ih =>
    obtain ⟨k', v'⟩ := hd
    by_cases h : k' = k <;> simp [mapInsert, mapLookup, h, ih]

theorem mapLookup_mapInsert_ne {α : Type} {k k' : String} (h : k' ≠ k) (v : α)
    (l : List (String × α)) : mapLookup k' (mapInsert k v l) = mapLookup k' l := by
  induction l with
  | nil => simp [mapInsert, mapLookup, Ne.symm h]
  | cons hd tl ih =>
    obtain ⟨k0, v0⟩ := hd
    by_cases h0 : k0 = k
    · subst h0
      simp [mapInsert, mapLookup, h, Ne.symm h]
    · by_cases h1 : k0 = k'
      · subst h1
        simp [mapInsert, mapLookup, h0]
      · simp [mapInsert, mapLookup, h0, h1, ih]

theorem mapLookup_eq_none_of_not_mem_keys {α : Type} {k : String} {l : List (String × α)}
    (h : k ∉ l.map Prod.fst) : mapLookup k l = none := by
  induction l with
  | nil => rfl
  | cons hd tl ih =>
    obtain ⟨k0, v0⟩ := hd
    simp only [List.map_cons, List.mem_cons] at h
    push_neg at h
    simp [mapLookup, Ne.symm h.1, ih h.2]

theorem mapLookup_filter {α : Type} (p : String × α → Bool) (l : List (String × α))
    (hnd : (l.map Prod.fst).Nodup) (k : String) :
    mapLookup k (l.filter p) =
      match mapLookup k l with
      | some v => if p (k, v) then some v else none
      | none => none := by
  induction l with
  | nil => rfl
  | cons hd tl ih =>
    obtain ⟨k0, v0⟩ := hd
    simp only [List.map_cons, List.nodup_cons] at hnd
    by_cases hk : k0 = k
    · subst hk
      by_cases hp : p (k0, v0)
      · simp [mapLookup, hp]
      · have hnone : mapLookup k0 (tl.filter p) = none := by
          apply mapLookup_eq_none_of_not_mem_keys
          intro hmem
          exact hnd.1 (by
            rcases List.mem_map.mp hmem with ⟨pr, hpr, hfst⟩
            exact List.mem_map.mpr ⟨pr, (List.mem_filter.mp hpr).1, hfst⟩)
        simp [mapLookup, hp, hnone]
    · by_cases hp : p (k0, v0)
      · simp [mapLookup, hp, hk, ih hnd.2]
      · simp [mapLookup, hp, hk, ih hnd.2]

/- ## Lemmas on the kernel-statistics line loop -/

theorem arcProcLines_isOk (lines : List (List Char)) : ∀ acc : ProcArc,
    (arcProcLines acc lines).isOk = lines.all (fun l => !arcLineBad l) := by
  induction lines with
  | nil => intro acc; rfl
  | cons raw rest ih =>
    intro acc
    by_cases hskip : rustTrim raw = [] ∨ startsWithC (rustTrim raw) "name".data
    · simp [arcProcLines, arcLineBad, hskip, ih]
    · have hcopy := hskip
      push_neg at hcopy
      obtain ⟨h1, h2⟩ := hcopy
      rcases hls : rustSplitWs (rustTrim raw) with _ | ⟨p0, _ | ⟨p1, _ | ⟨p2, ps⟩⟩⟩
      · simp [arcProcLines, arcLineBad, hskip, h1, h2, hls, ih]
      · simp [arcProcLines, arcLineBad, hskip, h1, h2, hls, ih]
      · simp [arcProcLines, arcLineBad, hskip, h1, h2, hls, ih]
      · rcases hp : parseU64 p2 with _ | v
        · simp [arcProcLines, arcLineBad, hskip, h1, h2, hls, hp, Except.isOk, Except.toBool]
        · simp [arcProcLines, arcLineBad, hskip, h1, h2, hls, hp, ih]

theorem arcProcLines_error_isParseError (lines : List (List Char)) : ∀ (acc : ProcArc)
    (e : ZfsError), arcProcLines acc lines = .error e → e.isParseError = true := by
  induction lines with
  | nil => intro acc e h; exact absurd h (by simp [arcProcLines])
  | cons raw rest ih =>
    intro acc e h
    by_cases hskip : rustTrim raw = [] ∨ startsWithC (rustTrim raw) "name".data
    · rw [arcProcLines, if_pos hskip] at h
      exact ih acc e h
    · rw [arcProcLines, if_neg hskip] at h
      rcases hls : rustSplitWs (rustTrim raw) with _ | ⟨p0, _ | ⟨p1, _ | ⟨p2, ps⟩⟩⟩ <;>
        simp only [hls] at h
      · exact ih acc e h
      · exact ih acc e h
      · exact ih acc e h
      · rcases hp : parseU64 p2 with _ | v <;> simp only [hp] at h
        · cases h
          rfl
        · exact ih _ e h

/- ## Lemmas on the unit table -/

theorem unitTable_char_cases {c : Char} {m : Nat} (h : (c, m) ∈ unitTable) :
    c = 'B' ∨ c = 'K' ∨ c = 'M' ∨ c = 'G' ∨ c = 'T' ∨ c = 'b' ∨ c = 'k' ∨
      c = 'm' ∨ c = 'g' ∨ c = 't' := by
  fin_cases h <;> simp

theorem unitTable_multiplier {c : Char} {m : Nat} (h : (c, m) ∈ unitTable) :
    unitMultiplier c = some m := by
  fin_cases h <;> decide

/- ## Lemmas on the status-tree loop -/

theorem slogDeviceLoop_isOk (lines : List (List Char)) : ∀ flag : Bool,
    (slogDeviceLoop flag lines).isOk = true := by
  induction lines with
  | nil => intro flag; rfl
  | cons raw rest ih =>
    intro flag
    by_cases h1 : startsWithC (rustTrim raw) "logs".data
    · simp [slogDeviceLoop, h1, ih]
    · cases flag
      · simp [slogDeviceLoop, h1, ih]
      · by_cases h2 : rustTrim raw = []
        · simp [slogDeviceLoop, h1, h2, ih]
        · rcases htok : slogTokenHit (rustTrim raw) with _ | tok
          · by_cases h3 : (rustTrim raw).head?.any Char.isAlpha &&
                !containsC "ONLINE".data (rustTrim raw) &&
                !startsWithC (rustTrim raw) "mirror-".data
            · simp [slogDeviceLoop, h1, h2, htok, h3, Except.isOk, Except.toBool]
            · simp [slogDeviceLoop, h1, h2, htok, h3, ih]
          · simp [slogDeviceLoop, h1, h2, htok, Except.isOk, Except.toBool]

theorem slogDeviceLoop_no_logs (lines : List (List Char))
    (h : ∀ l ∈ lines, startsWithC (rustTrim l) "logs".data = false) :
    slogDeviceLoop false lines = .ok none := by
  induction lines with
  | nil => rfl
  | cons raw rest ih =>
    have h1 : startsWithC (rustTrim raw) "logs".data = false := h raw (by simp)
    simp only [slogDeviceLoop, h1, Bool.false_eq_true, if_false, if_neg]
    exact ih (fun l hl => h l (List.mem_cons_of_mem _ hl))

theorem slogDeviceLoop_finds_mirror (pre rest : List (List Char))
    (h : ∀ l ∈ pre, startsWithC (rustTrim l) "logs".data = false) :
    slogDeviceLoop false (pre ++ "logs".data :: slogDevLineB :: rest) =
      .ok (some "mirror-1") := by
  induction pre with
  | nil =>
    rw [List.nil_append]
    have h1 : startsWithC (rustTrim "logs".data) "logs".data = true := by decide
    rw [slogDeviceLoop]
    rw [if_pos h1]
    have h2 : startsWithC (rustTrim slogDevLineB) "logs".data = false := by decide
    have h3 : ¬(rustTrim slogDevLineB = []) := by decide
    have h4 : slogTokenHit (rustTrim slogDevLineB) = some "mirror-1".data := by decide
    rw [slogDeviceLoop]
    simp only [h2, Bool.false_eq_true, if_false, if_true, if_neg h3, h4]
  | cons p ptl ih =>
    have h1 : startsWithC (rustTrim p) "logs".data = false := h p (by simp)
    rw [List.cons_append, slogDeviceLoop]
    simp only [h1, Bool.false_eq_true, if_false]
    exact ih (fun l hl => h l (List.mem_cons_of_mem _ hl))

/- ## Claim C1 -/

/-- C1 (amended): in the kernel-statistics parse of collect_arc_stats_from_proc,
a line whose value field is a malformed integer causes a hard parse failure
whenever the line is not skipped as blank or header and has at least three
whitespace fields — whether or not its name is recognized; the parse
succeeds exactly when no such line exists, and every failure it produces is
a parse-failure error. -/
theorem C1_proc_parse_failure_scope (content : String) (rc : RateCalculator) (now : ℚ) :
    ((collect_arc_stats_from_proc (.ok content) rc now).1.isOk =
      (rustLines content.data).all (fun l => !arcLineBad l))
    ∧ (∀ e, (collect_arc_stats_from_proc (.ok content) rc now).1 = .error e →
        e.isParseError = true) := by
  constructor
  · rcases hps : arcProcLines ProcArc.init (rustLines content.data) with e | st
    · have := arcProcLines_isOk (rustLines content.data) ProcArc.init
      rw [hps] at this
      simp only [collect_arc_stats_from_proc, hps]
      exact this
    · have := arcProcLines_isOk (rustLines content.data) ProcArc.init
      rw [hps] at this
      simp only [collect_arc_stats_from_proc, hps]
      exact this
  · intro e he
    rcases hps : arcProcLines ProcArc.init (rustLines content.data) with e' | st <;>
      simp only [collect_arc_stats_from_proc, hps] at he
    · cases he
      exact arcProcLines_error_isParseError (rustLines content.data) ProcArc.init e hps
    · cases he

/-- Counterexample to C1 as stated: the line has the unrecognized name foo,
yet its malformed value field makes the parse fail hard, because the value
is parsed before the name is matched. -/
theorem C1_counterexample :
    (collect_arc_stats_from_proc (.ok "foo 4 notanumber") RateCalculator.new 0).1 =
      .error (.parseError "ARC kstat" "Invalid number: notanumber") := by decide

/-- Witness for C1 at concrete inputs: well-formed text parses, and the
malformed unrecognized-name line fails with a parse error. -/
theorem C1_witness :
    ((collect_arc_stats_from_proc (.ok "hits 4 900\nmisses 4 100") RateCalculator.new 0).1.isOk =
      (rustLines "hits 4 900\nmisses 4 100".data).all (fun l => !arcLineBad l))
    ∧ (ZfsError.parseError "ARC kstat" "Invalid number: notanumber").isParseError = true :=
  ⟨(C1_proc_parse_failure_scope "hits 4 900\nmisses 4 100" RateCalculator.new 0).1,
   (C1_proc_parse_failure_scope "foo 4 notanumber" RateCalculator.new 0).2
     (ZfsError.parseError "ARC kstat" "Invalid number: notanumber") (by decide)⟩

/- ## Claim C2 -/

/-- C2: for the Rate Calculator, the first calculate_and_update of a fresh
key returns no rate; with a previous observation, a non-positive time delta
gives a rate of exactly 0, a decreased value gives a rate of exactly 0, and
a value increase over positive elapsed time gives exactly the increase
divided by the elapsed seconds. -/
theorem C2_rate_calculator_observation (rc : RateCalculator) (key : String)
    (v pv : Nat) (t pt : ℚ) :
    ((mapLookup key rc.previous_values = none ∧ mapLookup key rc.previous_timestamps = none) →
      (rc.calculate_and_update key v t).1 = none)
    ∧ (mapLookup key rc.previous_values = some pv →
       mapLookup key rc.previous_timestamps = some pt →
       ((t ≤ pt → (rc.calculate_and_update key v t).1 = some 0)
        ∧ (v < pv → (rc.calculate_and_update key v t).1 = some 0)
        ∧ (pv ≤ v → pt < t → (rc.calculate_and_update key v t).1 =
            some (((v : ℚ) - (pv : ℚ)) / (t - pt))))) := by
  constructor
  · rintro ⟨h1, h2⟩
    simp [RateCalculator.calculate_and_update, RateCalculator.calculate_rate, h1, h2]
  · intro h1 h2
    refine ⟨?_, ?_, ?_⟩
    · intro hle
      simp [RateCalculator.calculate_and_update, RateCalculator.calculate_rate, h1, h2,
        durationSince, hle]
    · intro hlt
      have hd : v - pv = 0 := Nat.sub_eq_zero_of_le (le_of_lt hlt)
      by_cases hle : t ≤ pt
      · simp [RateCalculator.calculate_and_update, RateCalculator.calculate_rate, h1, h2,
          durationSince, hle]
      · have hpos : 0 < qsub t pt := by
          rw [qsub_eq]
          have := not_le.mp hle
          linarith
        simp [RateCalculator.calculate_and_update, RateCalculator.calculate_rate, h1, h2,
          durationSince, hle, hpos, hd, qdiv_eq]
    · intro hpv hpt
      have hle : ¬ t ≤ pt := not_le.mpr hpt
      have hpos : 0 < qsub t pt := by
        rw [qsub_eq]
        linarith
      simp only [RateCalculator.calculate_and_update, RateCalculator.calculate_rate, h1, h2,
        durationSince, if_neg hle, if_pos hpos]
      rw [qdiv_eq, qsub_eq, Nat.cast_sub hpv]

/-- Witness for C2 at concrete inputs: a fresh calculator returns no rate,
and a second observation of 150 at instant 2 after 100 at instant 1 gives
the rate (150 - 100) / (2 - 1). -/
theorem C2_witness :
    (RateCalculator.new.calculate_and_update "arc_read_ops" 5 1).1 = none
    ∧ ((⟨[("k", 100)], [("k", 1)]⟩ : RateCalculator).calculate_and_update "k" 150 2).1 =
        some (((150 : ℚ) - (100 : ℚ)) / (2 - 1)) :=
  ⟨(C2_rate_calculator_observation RateCalculator.new "arc_read_ops" 5 0 1 0).1
      ⟨by decide, by decide⟩,
   (((C2_rate_calculator_observation ⟨[("k", 100)], [("k", 1)]⟩ "k" 150 100 2 1).2
      (by decide) (by decide)).2.2 (by decide) (by decide))⟩

/- ## Claim C3 -/

/-- C3 (amended): the empty string and a lone dash parse to 0; a string
whose trimmed form ends in a recognized unit letter parses its decimal
prefix exactly and scales it by the power-of-1024 multiplier of the
letter, truncating toward zero — saturating to the u64 range when the
product does not fit — and fails when the prefix is not numeric; a string
with no recognized trailing unit letter is parsed as a whole decimal
integer and fails when that integer parse fails. -/
theorem C3_bandwidth_parse (s : String) (c : Char) (q : ℚ) (m n : Nat) :
    (parse_bandwidth "" = .ok 0 ∧ parse_bandwidth "-" = .ok 0)
    ∧ (s.data ≠ [] → s.data ≠ ['-'] → (rustTrim s.data).getLast? = some c →
        (((c, m) ∈ unitTable →
           ((parseF64 (rustTrim s.data).dropLast = some q →
              (parse_bandwidth s = .ok (f64ToU64 (qmul q (m : ℚ)))
               ∧ (0 ≤ q → q * (m : ℚ) < 2 ^ 64 - 1 →
                   parse_bandwidth s = .ok (⌊q * (m : ℚ)⌋).toNat)))
            ∧ (parseF64 (rustTrim s.data).dropLast = none →
                (parse_bandwidth s).isOk = false)))
         ∧ (unitMultiplier c = none →
             ((parseU64 (rustTrim s.data) = some n → parse_bandwidth s = .ok n)
              ∧ (parseU64 (rustTrim s.data) = none → (parse_bandwidth s).isOk = false))))) := by
  refine ⟨⟨by decide, by decide⟩, ?_⟩
  intro h1 h2 hlast
  constructor
  · intro hmem
    have hor := unitTable_char_cases hmem
    have hum := unitTable_multiplier hmem
    constructor
    · intro hq
      have hmain : parse_bandwidth s = .ok (f64ToU64 (qmul q (m : ℚ))) := by
        simp [parse_bandwidth, h1, h2, hlast, hq, hor, hum]
      refine ⟨hmain, ?_⟩
      intro hq0 hbound
      rw [hmain]
      rw [qmul_eq]
      rw [f64ToU64_eq_floor hbound]
    · intro hq
      simp [parse_bandwidth, h1, h2, hlast, hq, hor, hum, Except.isOk, Except.toBool]
  · intro hum
    constructor
    · intro hn
      simp [parse_bandwidth, h1, h2, hlast, hum, hn]
    · intro hn
      simp [parse_bandwidth, h1, h2, hlast, hum, hn, Except.isOk, Except.toBool]

/-- Counterexample to C3 as stated: the numeric prefix 20000000000000000000
with unit B should give 20000000000000000000 bytes by the claim, but the
cast to u64 saturates at 18446744073709551615. -/
theorem C3_counterexample :
    parse_bandwidth "20000000000000000000B" = .ok 18446744073709551615
    ∧ (18446744073709551615 : Nat) ≠ 20000000000000000000 :=
  ⟨by decide, by decide⟩

/-- Witness for C3 at concrete inputs: 12.0M scales by 1024 squared and
truncates, 1024 parses as a whole integer, and 100X is a parse failure. -/
theorem C3_witness :
    parse_bandwidth "12.0M" = .ok (f64ToU64 (qmul 12 ((1024 ^ 2 : Nat) : ℚ)))
    ∧ parse_bandwidth "12.0M" = .ok (⌊(12 : ℚ) * ((1024 ^ 2 : Nat) : ℚ)⌋).toNat
    ∧ parse_bandwidth "1024" = .ok 1024
    ∧ (parse_bandwidth "100X").isOk = false :=
  ⟨((((C3_bandwidth_parse "12.0M" 'M' 12 (1024 ^ 2) 0).2 (by decide) (by decide)
      (by decide)).1 (by decide)).1 (by decide)).1,
   ((((C3_bandwidth_parse "12.0M" 'M' 12 (1024 ^ 2) 0).2 (by decide) (by decide)
      (by decide)).1 (by decide)).1 (by decide)).2 (by norm_num) (by norm_num),
   (((C3_bandwidth_parse "1024" '4' 0 0 1024).2 (by decide) (by decide)
      (by decide)).2 (by decide)).1 (by decide),
   (((C3_bandwidth_parse "100X" 'X' 0 0 0).2 (by decide) (by decide)
      (by decide)).2 (by decide)).2 (by decide)⟩

/- ## Claim C4 -/

/-- C4: collect_arc_stats takes the kernel-statistics path when it
succeeds; on any failure of it the result is that of the arcstat fallback
over the fixed ordered command list; the fallback returns the result of
the first variant that executes and parses successfully, earlier failing
variants being skipped; and when every variant fails it returns the
subsystem-unavailable error with the rate state untouched. -/
theorem C4_arc_collection_fallback (readResult : Except String String)
    (exec : String → List String → Except String String) (rc : RateCalculator) (now : ℚ)
    (cmds pre post : List (String × List String)) (ca : String × List String)
    (output : String) (stats : ArcStats) :
    (∀ s rc', collect_arc_stats_from_proc readResult rc now = (.ok s, rc') →
        collect_arc_stats readResult exec rc now = (.ok s, rc'))
    ∧ (∀ e rc', collect_arc_stats_from_proc readResult rc now = (.error e, rc') →
        collect_arc_stats readResult exec rc now =
          collect_arc_stats_from_arcstat exec arcstatCommands rc now)
    ∧ ((∀ c ∈ cmds, variantFails exec c) →
        collect_arc_stats_from_arcstat exec cmds rc now =
          (.error (.subsystemUnavailable "ARC"
            "Failed to collect statistics from all sources (/proc and arcstat command)"), rc))
    ∧ ((∀ c ∈ pre, variantFails exec c) → exec ca.1 ca.2 = .ok output →
        parse_arcstat_output output = .ok stats →
        collect_arc_stats_from_arcstat exec (pre ++ ca :: post) rc now =
          (.ok { stats with
              read_ops := f64ToU64 ((rc.calculate_and_update "arc_read_ops" stats.read_ops now).1.getD 0) },
           (rc.calculate_and_update "arc_read_ops" stats.read_ops now).2)) := by
  refine ⟨?_, ?_, ?_, ?_⟩
  · intro s rc' h
    simp [collect_arc_stats, h]
  · intro e rc' h
    simp [collect_arc_stats, h]
  · induction cmds with
    | nil => intro _; rfl
    | cons hd tl ih =>
      intro hall
      obtain ⟨chd, ahd⟩ := hd
      have hfail := hall (chd, ahd) (by simp)
      rcases hfail with ⟨e, he⟩ | ⟨o, e, ho, hp⟩
      · simp only [collect_arc_stats_from_arcstat, he]
        exact ih (fun c hc => hall c (List.mem_cons_of_mem _ hc))
      · simp only [collect_arc_stats_from_arcstat, ho, hp]
        exact ih (fun c hc => hall c (List.mem_cons_of_mem _ hc))
  · induction pre with
    | nil =>
      intro _ hok hp
      obtain ⟨cc, aa⟩ := ca
      simp only [List.nil_append, collect_arc_stats_from_arcstat, hok, hp]
    | cons p ptl ih =>
      intro hall hok hp
      obtain ⟨pc, pa⟩ := p
      have hfail := hall (pc, pa) (by simp)
      rcases hfail with ⟨e, he⟩ | ⟨o, e, ho, hpe⟩
      · rw [List.cons_append]
        simp only [collect_arc_stats_from_arcstat, he]
        exact ih (fun c hc => hall c (List.mem_cons_of_mem _ hc)) hok hp
      · rw [List.cons_append]
        simp only [collect_arc_stats_from_arcstat, ho, hpe]
        exact ih (fun c hc => hall c (List.mem_cons_of_mem _ hc)) hok hp

/-- Witness for C4 at concrete inputs: with an executor that fails the
arcstat variants and echoes unparsable text, all variants fail and the
collector reports the subsystem unavailable; with an executor answering
the first variant with a parsable line, the fallback returns its parse
with the read-ops counter passed through the rate calculator; and a
successful /proc parse short-circuits the fallback. -/
theorem C4_witness :
    collect_arc_stats_from_arcstat
        (fun c _ => if c = "arcstat" then .error "not found" else .ok "bogus")
        arcstatCommands RateCalculator.new 0 =
      (.error (.subsystemUnavailable "ARC"
        "Failed to collect statistics from all sources (/proc and arcstat command)"),
       RateCalculator.new)
    ∧ collect_arc_stats_from_arcstat
        (fun _ args => if args.length = 4 then .ok "95.2 1234 5368709120 8589934592"
          else .error "x")
        ([] ++ ("arcstat", ["-f", "hit%,miss%,read,arcsz,c", "1", "1"]) ::
          [("arcstat", ["1", "1"]), ("echo", ["|", "arcstat"])]) RateCalculator.new 0 =
      (.ok { hit_rate := Rat.divInt 952 10, size := 5368709120, target := 8589934592,
             read_ops := f64ToU64 ((RateCalculator.new.calculate_and_update "arc_read_ops" 1234 0).1.getD 0) },
       (RateCalculator.new.calculate_and_update "arc_read_ops" 1234 0).2)
    ∧ collect_arc_stats (.ok "hits 4 900\nmisses 4 100") (fun _ _ => .error "x")
        RateCalculator.new 0 =
      (.ok { hit_rate := 90, size := 0, target := 0, read_ops := 0 },
       ⟨[("arc_read_ops", 0)], [("arc_read_ops", 0)]⟩) :=
  ⟨(C4_arc_collection_fallback (.error "unused")
      (fun c _ => if c = "arcstat" then .error "not found" else .ok "bogus")
      RateCalculator.new 0 arcstatCommands [] [] ("echo", []) "" ⟨0, 0, 0, 0⟩).2.2.1
      (by
        intro c hc
        fin_cases hc
        · exact Or.inl ⟨"not found", by decide⟩
        · exact Or.inl ⟨"not found", by decide⟩
        · exact Or.inr ⟨"bogus", .invalidFormat "at least 4 space-separated numbers"
            "1 parts" "arcstat output", by decide, by decide⟩),
   (C4_arc_collection_fallback (.error "unused")
      (fun _ args => if args.length = 4 then .ok "95.2 1234 5368709120 8589934592"
        else .error "x")
      RateCalculator.new 0 [] [] [("arcstat", ["1", "1"]), ("echo", ["|", "arcstat"])]
      ("arcstat", ["-f", "hit%,miss%,read,arcsz,c", "1", "1"])
      "95.2 1234 5368709120 8589934592"
      ⟨Rat.divInt 952 10, 5368709120, 8589934592, 1234⟩).2.2.2
      (by intro c hc; exact absurd hc (List.not_mem_nil c)) (by decide) (by decide),
   (C4_arc_collection_fallback (.ok "hits 4 900\nmisses 4 100") (fun _ _ => .error "x")
      RateCalculator.new 0 [] [] [] ("echo", []) "" ⟨0, 0, 0, 0⟩).1
      { hit_rate := 90, size := 0, target := 0, read_ops := 0 }
      ⟨[("arc_read_ops", 0)], [("arc_read_ops", 0)]⟩ (by decide)⟩

/- ## Claim C5 -/

/-- C5: after insert_with_ttl at instant t0 with TTL ttl, a get strictly
before the expiry instant t0 + ttl returns the inserted value, a get at or
after the expiry instant returns none, and with a TTL of zero every get not
earlier than the insertion instant returns none. -/
theorem C5_cache_get_respects_ttl {T : Type} (c : Cache T) (key : String) (v : T)
    (ttl t0 t : ℚ) :
    ((t < t0 + ttl) → (c.insert_with_ttl t0 key v ttl).get t key = some v)
    ∧ ((t0 + ttl ≤ t) → (c.insert_with_ttl t0 key v ttl).get t key = none)
    ∧ (ttl = 0 → t0 ≤ t → (c.insert_with_ttl t0 key v ttl).get t key = none) := by
  have hlook : mapLookup key (c.insert_with_ttl t0 key v ttl).data =
      some ⟨v, qadd t0 ttl⟩ := by
    simp [Cache.insert_with_ttl, mapLookup_mapInsert_self]
  refine ⟨?_, ?_, ?_⟩
  · intro hlt
    simp [Cache.get, hlook, qadd_eq, hlt]
  · intro hge
    simp [Cache.get, hlook, qadd_eq, not_lt.mpr hge]
  · intro h0 hle
    have : t0 + ttl ≤ t := by rw [h0, add_zero]; exact hle
    simp [Cache.get, hlook, qadd_eq, not_lt.mpr this]

/-- Witness for C5 at concrete inputs: value 42 inserted at instant 10 with
TTL 5 is visible at instant 14, gone at instant 15, and a zero-TTL insert
at instant 10 is already gone at instant 10. -/
theorem C5_witness :
    ((Cache.new Nat 30).insert_with_ttl 10 "zpool_status" 42 5).get 14 "zpool_status" = some 42
    ∧ ((Cache.new Nat 30).insert_with_ttl 10 "zpool_status" 42 5).get 15 "zpool_status" = none
    ∧ ((Cache.new Nat 30).insert_with_ttl 10 "zpool_status" 42 0).get 10 "zpool_status" = none :=
  ⟨(C5_cache_get_respects_ttl (Cache.new Nat 30) "zpool_status" 42 5 10 14).1 (by norm_num),
   (C5_cache_get_respects_ttl (Cache.new Nat 30) "zpool_status" 42 5 10 15).2.1 (by norm_num),
   (C5_cache_get_respects_ttl (Cache.new Nat 30) "zpool_status" 42 0 10 10).2.2 rfl
     (by norm_num)⟩

/- ## Claim C6 -/

/-- C6 (amended): the ARC hit rate produced from parsed counters hits = H
and misses = M equals 100 * H / (H + M) when 0 < H + M and the u64 sum H +
M does not overflow, and equals 0 when H + M = 0; the same holds for the
L2ARC hit rate computed from the l2 counters. -/
theorem C6_hit_rate_formula (content : String) (rc : RateCalculator) (now : ℚ)
    (ps : ProcArc) (l2 : ProcL2) :
    (arcProcLines ProcArc.init (rustLines content.data) = .ok ps →
      ((∀ stats rcx, collect_arc_stats_from_proc (.ok content) rc now = (.ok stats, rcx) →
          stats.hit_rate = hitRatePct ps.hits ps.misses)
       ∧ (collect_arc_stats_from_proc (.ok content) rc now).1.isOk = true))
    ∧ (0 < ps.hits + ps.misses → ps.hits + ps.misses < 2 ^ 64 →
        hitRatePct ps.hits ps.misses =
          100 * (ps.hits : ℚ) / ((ps.hits : ℚ) + (ps.misses : ℚ)))
    ∧ (ps.hits + ps.misses = 0 → hitRatePct ps.hits ps.misses = 0)
    ∧ (l2ProcLines ProcL2.init (rustLines content.data) = .ok l2 →
       (rustLines content.data).any (fun l => startsWithC l "l2_size".data) = true →
        ((∀ stats rcx, collect_l2arc_stats (.ok content) rc now = (.ok (some stats), rcx) →
            stats.hit_rate = hitRatePct l2.l2_hits l2.l2_misses)
         ∧ (collect_l2arc_stats (.ok content) rc now).1 ≠ .ok none))
    ∧ (0 < l2.l2_hits + l2.l2_misses → l2.l2_hits + l2.l2_misses < 2 ^ 64 →
        hitRatePct l2.l2_hits l2.l2_misses =
          100 * (l2.l2_hits : ℚ) / ((l2.l2_hits : ℚ) + (l2.l2_misses : ℚ)))
    ∧ (l2.l2_hits + l2.l2_misses = 0 → hitRatePct l2.l2_hits l2.l2_misses = 0) := by
  have hform : ∀ h m : Nat, 0 < h + m → h + m < 2 ^ 64 →
      hitRatePct h m = 100 * (h : ℚ) / ((h : ℚ) + (m : ℚ)) := by
    intro h m hpos hlt
    have htot : ((u64add h m : Nat) : ℚ) = (h : ℚ) + (m : ℚ) := by
      rw [u64add_eq_of_lt hlt]
      push_cast
      ring
    simp only [hitRatePct, u64add_eq_of_lt hlt, if_pos hpos, qmul_eq, qdiv_eq, htot]
    rw [mul_comm, mul_div_assoc]
    push_cast
    ring
  have hzero : ∀ h m : Nat, h + m = 0 → hitRatePct h m = 0 := by
    intro h m h0
    simp [hitRatePct, u64add, h0]
  refine ⟨?_, hform ps.hits ps.misses, hzero ps.hits ps.misses, ?_,
    hform l2.l2_hits l2.l2_misses, hzero l2.l2_hits l2.l2_misses⟩
  · intro hfold
    constructor
    · intro stats rcx heq
      simp only [collect_arc_stats_from_proc, hfold] at heq
      have h1 := Except.ok.inj (congrArg Prod.fst heq)
      rw [← h1]
    · simp [collect_arc_stats_from_proc, hfold, Except.isOk, Except.toBool]
  · intro hfold hany
    constructor
    · intro stats rcx heq
      simp only [collect_l2arc_stats, hany, Bool.not_true, Bool.false_eq_true, if_false,
        hfold] at heq
      have h1 := Except.ok.inj (congrArg Prod.fst heq)
      have h2 := Option.some.inj h1
      rw [← h2]
    · simp [collect_l2arc_stats, hany, hfold]

/-- Counterexample to C6 as stated: with hits = misses = 2 ^ 63 the u64 sum
wraps to 0, so the computed hit rate is 0 although H + M > 0 and the
claimed value 100 * H / (H + M) is 50. -/
theorem C6_counterexample :
    (collect_arc_stats_from_proc
        (.ok "hits 4 9223372036854775808\nmisses 4 9223372036854775808")
        RateCalculator.new 0).1 =
      .ok { hit_rate := 0, size := 0, target := 0, read_ops := 0 }
    ∧ (100 * ((9223372036854775808 : Nat) : ℚ) /
        (((9223372036854775808 : Nat) : ℚ) + ((9223372036854775808 : Nat) : ℚ)) = 50)
    ∧ (0 : ℚ) ≠ 50 :=
  ⟨by decide, by norm_num, by norm_num⟩

/-- Witness for C6 at concrete inputs: hits 900 and misses 100 give a hit
rate of 100 * 900 / 1000, for the ARC path and in the closed formula; the
L2 path with 30 hits and 10 misses is present and not none. -/
theorem C6_witness :
    ((90 : ℚ) = hitRatePct 900 100)
    ∧ hitRatePct 900 100 = 100 * ((900 : Nat) : ℚ) / (((900 : Nat) : ℚ) + ((100 : Nat) : ℚ))
    ∧ (collect_l2arc_stats
        (.ok "l2_hits 4 30\nl2_misses 4 10\nl2_size 4 77\nl2_read_bytes 4 5")
        RateCalculator.new 0).1 ≠ .ok none :=
  ⟨((C6_hit_rate_formula "hits 4 900\nmisses 4 100\nsize 4 5\nc_max 4 7\nread_ops 4 9"
      RateCalculator.new 0 ⟨900, 100, 5, 7, 9⟩ ⟨0, 0, 0, 0⟩).1 (by decide)).1
      { hit_rate := 90, size := 5, target := 7, read_ops := 0 }
      ⟨[("arc_read_ops", 9)], [("arc_read_ops", 0)]⟩ (by decide),
   (C6_hit_rate_formula "" RateCalculator.new 0 ⟨900, 100, 0, 0, 0⟩ ⟨0, 0, 0, 0⟩).2.1
     (by decide) (by decide),
   ((C6_hit_rate_formula "l2_hits 4 30\nl2_misses 4 10\nl2_size 4 77\nl2_read_bytes 4 5"
      RateCalculator.new 0 ⟨0, 0, 0, 0, 0⟩ ⟨30, 10, 77, 5⟩).2.2.2.1 (by decide)
      (by decide)).2⟩

/- ## Claim C7 -/

/-- C7: calculate_and_update always stores the current value and timestamp
under the observed key, whether or not a rate was returned, and leaves the
entries of every other key unchanged. -/
theorem C7_update_stores_and_frames (rc : RateCalculator) (key : String) (v : Nat) (t : ℚ) :
    (mapLookup key (rc.calculate_and_update key v t).2.previous_values = some v
     ∧ mapLookup key (rc.calculate_and_update key v t).2.previous_timestamps = some t)
    ∧ (∀ k', k' ≠ key →
        mapLookup k' (rc.calculate_and_update key v t).2.previous_values =
          mapLookup k' rc.previous_values
        ∧ mapLookup k' (rc.calculate_and_update key v t).2.previous_timestamps =
          mapLookup k' rc.previous_timestamps) := by
  refine ⟨⟨?_, ?_⟩, ?_⟩
  · simp [RateCalculator.calculate_and_update, RateCalculator.update, mapLookup_mapInsert_self]
  · simp [RateCalculator.calculate_and_update, RateCalculator.update, mapLookup_mapInsert_self]
  · intro k' hk
    exact ⟨mapLookup_mapInsert_ne hk _ _, mapLookup_mapInsert_ne hk _ _⟩

/-- Witness for C7 at concrete inputs: updating key b stores (7, 3) there
and does not disturb the entry of key a. -/
theorem C7_witness :
    mapLookup "b" ((⟨[("a", 1)], [("a", 2)]⟩ : RateCalculator).calculate_and_update
      "b" 7 3).2.previous_values = some 7
    ∧ mapLookup "a" ((⟨[("a", 1)], [("a", 2)]⟩ : RateCalculator).calculate_and_update
      "b" 7 3).2.previous_values = mapLookup "a" [("a", (1 : Nat))] :=
  ⟨(C7_update_stores_and_frames ⟨[("a", 1)], [("a", 2)]⟩ "b" 7 3).1.1,
   ((C7_update_stores_and_frames ⟨[("a", 1)], [("a", 2)]⟩ "b" 7 3).2 "a" (by decide)).1⟩

/- ## Claim C8 -/

/-- C8: the status-tree parser never returns an error; any status text made
of a prefix without a logs line, a logs line, and then the scenario-B
device line starting with mirror-1 ONLINE 0 0 0 yields the device
identifier mirror-1; and status text with no logs section yields the
none result. -/
theorem C8_slog_status_contract :
    (∀ s, (parse_slog_device_from_status s).isOk = true)
    ∧ (∀ pre rest, (∀ l ∈ pre, startsWithC (rustTrim l) "logs".data = false) →
        slogDeviceLoop false (pre ++ "logs".data :: slogDevLineB :: rest) =
          .ok (some "mirror-1"))
    ∧ (∀ s, (∀ l ∈ rustLines s.data, startsWithC (rustTrim l) "logs".data = false) →
        parse_slog_device_from_status s = .ok none) :=
  ⟨fun s => slogDeviceLoop_isOk (rustLines s.data) false,
   fun pre rest h => slogDeviceLoop_finds_mirror pre rest h,
   fun s h => slogDeviceLoop_no_logs (rustLines s.data) h⟩

/-- Witness for C8 at concrete inputs: a pool header line before the logs
section still yields mirror-1, and a status text with no logs section
yields none. -/
theorem C8_witness :
    slogDeviceLoop false (["  pool: tank".data] ++ "logs".data :: slogDevLineB :: []) =
      .ok (some "mirror-1")
    ∧ parse_slog_device_from_status "  pool: tank\nconfig:\n  sda ONLINE 0 0 0" = .ok none :=
  ⟨C8_slog_status_contract.2.1 ["  pool: tank".data] [] (by decide),
   C8_slog_status_contract.2.2 "  pool: tank\nconfig:\n  sda ONLINE 0 0 0" (by decide)⟩

/- ## Claim C9 -/

/-- C9: cleanup at instant t physically removes exactly the entries whose
expiry instant has been reached, so that any later get behaves as before
the cleanup, and clear removes every entry unconditionally, leaving the
store empty.  The key-uniqueness hypothesis reflects the HashMap backing
store. -/
theorem C9_cleanup_exact_and_clear {T : Type} (c : Cache T) (t : ℚ) (k : String)
    (e : CacheEntry T) (hnd : (c.data.map Prod.fst).Nodup) :
    ((k, e) ∈ (c.cleanup t).data ↔ ((k, e) ∈ c.data ∧ t < e.expires_at))
    ∧ (∀ t', t ≤ t' → (c.cleanup t).get t' k = c.get t' k)
    ∧ (c.clear.get t k = none ∧ c.clear.data = []) := by
  refine ⟨?_, ?_, ?_, rfl⟩
  · simp [Cache.cleanup, List.mem_filter]
  · intro t' ht
    simp only [Cache.get, Cache.cleanup]
    rw [mapLookup_filter _ _ hnd]
    rcases hcase : mapLookup k c.data with _ | entry
    · rfl
    · by_cases hkeep : t < entry.expires_at
      · simp [hkeep]
      · have ht' : ¬ t' < entry.expires_at := by
          have := not_lt.mp hkeep
          intro hcon
          linarith
        simp [hkeep, ht']
  · simp [Cache.clear, Cache.get, mapLookup]

/-- Witness for C9 at concrete inputs: with one expired and one live entry,
cleanup at instant 7 keeps the live membership fact, a later get agrees
with the uncleaned cache, and clear empties the store. -/
theorem C9_witness :
    (("b", ({ value := 2, expires_at := 10 } : CacheEntry Nat)) ∈
        ((⟨[("a", ⟨1, 5⟩), ("b", ⟨2, 10⟩)], 30⟩ : Cache Nat).cleanup 7).data
      ↔ ((("b", ({ value := 2, expires_at := 10 } : CacheEntry Nat)) ∈
          [("a", (⟨1, 5⟩ : CacheEntry Nat)), ("b", ⟨2, 10⟩)]) ∧ (7 : ℚ) < 10))
    ∧ ((⟨[("a", ⟨1, 5⟩), ("b", ⟨2, 10⟩)], 30⟩ : Cache Nat).cleanup 7).get 8 "a" =
        (⟨[("a", ⟨1, 5⟩), ("b", ⟨2, 10⟩)], 30⟩ : Cache Nat).get 8 "a"
    ∧ (⟨[("a", ⟨1, 5⟩), ("b", ⟨2, 10⟩)], 30⟩ : Cache Nat).clear.data = [] :=
  ⟨(C9_cleanup_exact_and_clear (⟨[("a", ⟨1, 5⟩), ("b", ⟨2, 10⟩)], 30⟩ : Cache Nat) 7 "b"
      ⟨2, 10⟩ (by decide)).1,
   (C9_cleanup_exact_and_clear (⟨[("a", ⟨1, 5⟩), ("b", ⟨2, 10⟩)], 30⟩ : Cache Nat) 7 "a"
      ⟨1, 5⟩ (by decide)).2.1 8 (by norm_num),
   (C9_cleanup_exact_and_clear (⟨[("a", ⟨1, 5⟩), ("b", ⟨2, 10⟩)], 30⟩ : Cache Nat) 7 "a"
      ⟨1, 5⟩ (by decide)).2.2.2⟩

/- ## Claim C10 -/

/-- C10: parse_arcstat_output fails with an invalid-format error exactly
when the input has fewer than four whitespace fields; with at least four,
field 1 is the hit-rate percentage, field 2 the cumulative read-operations
count, field 3 the current size and field 4 the target size, any further
fields are ignored, and a numeric failure in one of the four fields is a
parse failure. -/
theorem C10_parse_arcstat_output_contract (output : String) (p0 p1 p2 p3 : List Char)
    (rest : List (List Char)) (q : ℚ) (n1 n2 n3 : Nat) :
    (resultInvalidFormat (parse_arcstat_output output) =
      decide ((rustSplitWs output.data).length < 4))
    ∧ (rustSplitWs output.data = p0 :: p1 :: p2 :: p3 :: rest →
        ((parseF64 p0 = some q → parseU64 p1 = some n1 → parseU64 p2 = some n2 →
           parseU64 p3 = some n3 →
           parse_arcstat_output output =
             .ok { hit_rate := q, size := n2, target := n3, read_ops := n1 })
         ∧ ((parseF64 p0 = none ∨ parseU64 p1 = none ∨ parseU64 p2 = none ∨
              parseU64 p3 = none) →
            (parse_arcstat_output output).isOk = false)
         ∧ (∀ e, parse_arcstat_output output = .error e → e.isParseError = true))) := by
  constructor
  · rcases hls : rustSplitWs output.data with _ | ⟨a0, _ | ⟨a1, _ | ⟨a2, _ | ⟨a3, arest⟩⟩⟩⟩ <;>
      simp only [parse_arcstat_output, hls]
    · simp [resultInvalidFormat, ZfsError.isInvalidFormat]
    · simp [resultInvalidFormat, ZfsError.isInvalidFormat]
    · simp [resultInvalidFormat, ZfsError.isInvalidFormat]
    · simp [resultInvalidFormat, ZfsError.isInvalidFormat]
    · rcases hp0 : parseF64 a0 with _ | q0
      · simp [hp0, resultInvalidFormat, ZfsError.isInvalidFormat]
      · rcases hp1 : parseU64 a1 with _ | v1
        · simp [hp0, hp1, resultInvalidFormat, ZfsError.isInvalidFormat]
        · rcases hp2 : parseU64 a2 with _ | v2
          · simp [hp0, hp1, hp2, resultInvalidFormat, ZfsError.isInvalidFormat]
          · rcases hp3 : parseU64 a3 with _ | v3
            · simp [hp0, hp1, hp2, hp3, resultInvalidFormat, ZfsError.isInvalidFormat]
            · simp [hp0, hp1, hp2, hp3, resultInvalidFormat, ZfsError.isInvalidFormat]
  · intro hls
    refine ⟨?_, ?_, ?_⟩
    · intro hq h1 h2 h3
      simp [parse_arcstat_output, hls, hq, h1, h2, h3]
    · intro hbad
      rcases hp0 : parseF64 p0 with _ | q0
      · simp [parse_arcstat_output, hls, hp0, Except.isOk, Except.toBool]
      · rcases hp1 : parseU64 p1 with _ | v1
        · simp [parse_arcstat_output, hls, hp0, hp1, Except.isOk, Except.toBool]
        · rcases hp2 : parseU64 p2 with _ | v2
          · simp [parse_arcstat_output, hls, hp0, hp1, hp2, Except.isOk, Except.toBool]
          · rcases hp3 : parseU64 p3 with _ | v3
            · simp [parse_arcstat_output, hls, hp0, hp1, hp2, hp3, Except.isOk, Except.toBool]
            · rcases hbad with h | h | h | h
              · rw [h] at hp0
                cases hp0
              · rw [h] at hp1
                cases hp1
              · rw [h] at hp2
                cases hp2
              · rw [h] at hp3
                cases hp3
    · intro e he
      simp only [parse_arcstat_output, hls] at he
      rcases hp0 : parseF64 p0 with _ | q0 <;> simp only [hp0] at he
      · cases he
        rfl
      · rcases hp1 : parseU64 p1 with _ | v1 <;> simp only [hp1] at he
        · cases he
          rfl
        · rcases hp2 : parseU64 p2 with _ | v2 <;> simp only [hp2] at he
          · cases he
            rfl
          · rcases hp3 : parseU64 p3 with _ | v3 <;> simp only [hp3] at he
            · cases he
              rfl
            · cases he

/-- Witness for C10 at concrete inputs: a five-field line parses with its
second field as the read-operations count, and a two-field line is an
invalid-format failure. -/
theorem C10_witness :
    parse_arcstat_output "95.2 1234 5368709120 8589934592 77" =
      .ok { hit_rate := Rat.divInt 952 10, size := 5368709120,
            target := 8589934592, read_ops := 1234 }
    ∧ resultInvalidFormat (parse_arcstat_output "95.2 1234") =
        decide ((rustSplitWs "95.2 1234".data).length < 4) :=
  ⟨((C10_parse_arcstat_output_contract "95.2 1234 5368709120 8589934592 77"
      "95.2".data "1234".data "5368709120".data "8589934592".data ["77".data]
      (Rat.divInt 952 10) 1234 5368709120 8589934592).2 (by decide)).1
      (by decide) (by decide) (by decide) (by decide),
   (C10_parse_arcstat_output_contract "95.2 1234" [] [] [] [] [] 0 0 0 0).1⟩
